import Mathlib

/-!
Verification of the Uniguru grounded-composition pipeline.

This file gives a shallow embedding, in Lean 4, of the core of the
`server/composer` package — the grounding verifier (`grounding.py`), the
epsilon-greedy strategy policy (`rl_policy.py`), the template selection
logic (`templates.py`) and the composition orchestrator (`compose.py`) —
and proves (or refutes) the specification's claims about them.

Modelling conventions:
* Python floats are modelled as exact rationals (`ℚ`).
* Python sets of strings are modelled as `Finset String`; where the source
  takes a few elements out of a set in Python's unspecified iteration
  order (`list(s)[:3]`), the embedding takes them in sorted order — no
  claim depends on which elements are chosen.
* Python dicts used as insertion-ordered mappings are modelled as
  association lists in insertion order, including the `defaultdict`
  behaviour of inserting a default value on read access.
* Randomness (`random.random()`, `random.choice`) is passed in explicitly
  as arguments; wall-clock readings (`time.time()`, composition time) are
  passed in as an argument where their value is used, and dropped where it
  is only logged.
* File persistence and logging are external collaborators; the fresh-start
  state (no snapshot on disk) is modelled.
-/

namespace Uniguru

/-- Characters removed by `string.punctuation` in `_tokenize_text`:
the ASCII ranges 33–47, 58–64, 91–96 and 123–126. -/
def isPunctChar (c : Char) : Bool :=
  (33 ≤ c.toNat && c.toNat ≤ 47) || (58 ≤ c.toNat && c.toNat ≤ 64) ||
    (91 ≤ c.toNat && c.toNat ≤ 96) || (123 ≤ c.toNat && c.toNat ≤ 126)

/-- Code points of the Devanagari block `ऀ`–`ॿ`. -/
def isDevanagariChar (c : Char) : Bool :=
  0x900 ≤ c.toNat && c.toNat ≤ 0x97F

/-- Embedding of `_contains_devanagari`. -/
def containsDevanagari (s : String) : Bool :=
  s.toList.any isDevanagariChar

/-- Python's `str.lower()` (character-wise lowercasing; ASCII letters are
the only cased characters this code base feeds it). -/
def strLower (s : String) : String :=
  String.mk (s.toList.map Char.toLower)

/-- Maximal runs of characters satisfying `p`, in order (the semantics of
`re.findall` on a character-class regex such as `[ऀ-ॿ]+`): a `p`-character
followed by another `p`-character joins the run that follows it, otherwise
it opens a run of its own. -/
def charRuns (p : Char → Bool) : List Char → List (List Char)
  | [] => []
  | c :: cs =>
    let rest := charRuns p cs
    if p c then
      match cs with
      | [] => [[c]]
      | d :: _ => if p d then (c :: rest.headD []) :: rest.tail else [c] :: rest
    else rest

/-- ASCII word characters (letters and digits); after punctuation deletion
these are the `\w` characters that can block a `\b` boundary. -/
def isWordChar (c : Char) : Bool := c.isAlphanum

/-- Embedding of `re.findall(r'\b[a-zA-Z]+\b', text)` on punctuation-free
lowercased text: a maximal alphanumeric run is matched exactly when it
consists of letters only (a digit neighbour suppresses the boundary). -/
def latinTokens (cs : List Char) : List String :=
  ((charRuns isWordChar cs).filter fun r => r.all Char.isAlpha).map
    fun r => String.mk r

/-- Embedding of `re.findall(r'[ऀ-ॿ]+', text)`. -/
def devanagariTokens (cs : List Char) : List String :=
  (charRuns isDevanagariChar cs).map fun r => String.mk r

/-- Embedding of `GroundingVerifier._tokenize_text`: lowercase, delete
punctuation, extract script-appropriate tokens, keep tokens of length
greater than one, and return them as a set. -/
def tokenizeText (text : String) : Finset String :=
  let cs := (strLower text).toList.filter fun c => !isPunctChar c
  let toks := if cs.any isDevanagariChar then devanagariTokens cs else latinTokens cs
  (toks.filter fun t => 1 < t.length).toFinset

/-- The English stopword set of `_initialize_stopwords`. -/
def enStopwords : Finset String :=
  (["a", "an", "the", "is", "are", "was", "were", "be", "been", "being",
    "have", "has", "had", "do", "does", "did", "will", "would", "could",
    "should", "may", "might", "can", "must", "shall", "to", "of", "in",
    "for", "on", "with", "by", "from", "as", "at", "or", "and", "but",
    "if", "then", "than", "when", "where", "why", "how", "what", "which",
    "who", "whom", "whose", "this", "that", "these", "those", "i", "you",
    "he", "she", "it", "we", "they", "me", "him", "her", "us", "them"] :
    List String).toFinset

/-- The Hindi stopword set of `_initialize_stopwords`. -/
def hiStopwords : Finset String :=
  (["है", "हैं", "था", "थे", "थी", "हो", "होना", "होने", "होगा", "होंगे",
    "में", "की", "के", "को", "से", "पर", "या", "और", "तथा", "एवं",
    "यह", "वह", "ये", "वे", "इस", "उस", "इन", "उन", "जो", "जिस",
    "कि", "अगर", "यदि", "तो", "फिर", "भी", "तक", "बाद", "पहले",
    "अब", "यहाँ", "वहाँ", "कहाँ", "कब", "कैसे", "क्यों", "क्या",
    "कौन", "कौनसा", "मैं", "तू", "आप", "हम", "तुम", "वो"] :
    List String).toFinset

/-- Embedding of `_filter_content_tokens`: pick the stopword language from
the tokens themselves (any Devanagari token selects Hindi), then remove
the stopwords. -/
def filterContentTokens (tokens : Finset String) : Finset String :=
  let stop :=
    if (tokens.filter fun t => containsDevanagari t = true).Nonempty
    then hiStopwords else enStopwords
  tokens.filter fun t => t ∉ stop

/-- Content tokens of a text: tokenization followed by stopword removal,
the composition used throughout `verify_grounding`. -/
def contentTokensOf (text : String) : Finset String :=
  filterContentTokens (tokenizeText text)

/-- A retrieved source chunk as consumed by the composer: `chunk.get('text', '')`,
`chunk.get('source', …)` and `chunk.get('score', 0.0)`. -/
structure SourceChunk where
  text : String
  source : Option String
  score : ℚ
deriving DecidableEq

/-- Configuration of `GroundingVerifier.__init__`. -/
structure GroundingVerifier where
  minOverlapRatio : ℚ
  minTokens : ℕ
deriving DecidableEq

/-- The verifier the composer constructs: `GroundingVerifier()` with the
default thresholds MIN_RATIO = 0.3 and MIN_TOKENS = 3. -/
def defaultVerifier : GroundingVerifier :=
  { minOverlapRatio := 3/10, minTokens := 3 }

/-- One entry of `chunk_coverage` in `verify_grounding`. -/
structure ChunkOverlap where
  chunkId : ℕ
  source : String
  overlappingTokens : Finset String
  overlapCount : ℕ
  overlapRatio : ℚ
  chunkScore : ℚ
deriving DecidableEq

/-- The per-chunk overlap record of `verify_grounding`'s loop body. -/
def mkChunkOverlap (content : Finset String) (i : ℕ) (ch : SourceChunk) :
    ChunkOverlap :=
  let chunkContent := filterContentTokens (tokenizeText ch.text)
  let overlap := content ∩ chunkContent
  { chunkId := i
    source := ch.source.getD ("Chunk " ++ toString i)
    overlappingTokens := overlap
    overlapCount := overlap.card
    overlapRatio := if content.card = 0 then 0 else (overlap.card : ℚ) / content.card
    chunkScore := ch.score }

/-- The enumerated loop of `verify_grounding` over `top_chunks`: chunks with
empty text are skipped but still consume an index. -/
def chunkOverlapList (content : Finset String) : ℕ → List SourceChunk → List ChunkOverlap
  | _, [] => []
  | i, ch :: rest =>
    if ch.text = "" then chunkOverlapList content (i + 1) rest
    else mkChunkOverlap content i ch :: chunkOverlapList content (i + 1) rest

/-- Accumulation of `all_overlapping_tokens.update(overlap)`. -/
def allOverlappingTokens (overlaps : List ChunkOverlap) : Finset String :=
  overlaps.foldl (fun acc o => acc ∪ o.overlappingTokens) ∅

/-- Embedding of `_calculate_grounding_score`. -/
def calculateGroundingScore (v : GroundingVerifier) (overlapCount : ℕ)
    (overlapRat : ℚ) (chunkOverlaps : List ChunkOverlap) : ℚ :=
  if chunkOverlaps = [] then 0
  else
    let baseScore := min 1 (overlapRat / v.minOverlapRatio)
    let tokenBonus : ℚ := if v.minTokens ≤ overlapCount then 2/10 else 0
    let coveredChunks := (chunkOverlaps.filter fun c => 0 < c.overlapCount).length
    let coverageBonus : ℚ :=
      if 1 < coveredChunks then min (2/10) (((coveredChunks - 1 : ℕ) : ℚ) * (1/10))
      else 0
    let penalty : ℚ := if overlapRat < 1/10 then 3/10 else 0
    max 0 (min 1 (baseScore + tokenBonus + coverageBonus - penalty))

/-- The fixed domain-concept vocabulary of `_extract_concepts`. -/
def spiritualConcepts : List String :=
  ["dharma", "karma", "moksha", "yoga", "meditation", "wisdom", "truth",
   "knowledge", "devotion", "compassion", "enlightenment", "consciousness",
   "soul", "spirit", "divine", "sacred", "holy", "transcendence",
   "liberation", "self-realization", "inner peace", "spiritual growth",
   "ध्यान", "योग", "कर्म", "धर्म", "मोक्ष", "आत्मा", "ब्रह्म", "ईश्वर",
   "भक्ति", "ज्ञान", "शांति", "करुणा", "दया", "अहिंसा", "सत्य", "प्रेम"]

/-- Substring test on character lists (the semantics of Python's `in`). -/
def listInfix (need : List Char) : List Char → Bool
  | [] => need.isEmpty
  | c :: rest => need.isPrefixOf (c :: rest) || listInfix need rest

/-- Substring test on strings: `need in hay` in Python. -/
def strIncludes (hay need : String) : Bool :=
  listInfix need.toList hay.toList

/-- Word characters of Python's unicode `\w` restricted to the scripts this
code base handles: ASCII alphanumerics, underscore and Devanagari. -/
def pyWordChar (c : Char) : Bool :=
  c.isAlphanum || c = '_' || isDevanagariChar c

/-- Embedding of `re.findall(r'\b[A-Z][a-z]+\b', text)` in `_extract_concepts`:
a maximal word-character run that is exactly one ASCII capital followed by
one or more ASCII lowercase letters. -/
def properNounTokens (cs : List Char) : List String :=
  ((charRuns pyWordChar cs).filter fun r =>
    match r with
    | [] => false
    | c :: rest => c.isUpper && !rest.isEmpty && rest.all Char.isLower).map
    fun r => String.mk (r.map Char.toLower)

/-- Embedding of `_extract_concepts`: vocabulary concepts found as substrings
of the lowercased text, plus lowercased proper nouns. -/
def extractConcepts (text : String) : Finset String :=
  let lowered := strLower text
  let fromVocab := spiritualConcepts.filter fun c => strIncludes lowered c
  (fromVocab ++ properNounTokens text.toList).toFinset

/-- Embedding of `_check_semantic_grounding`. -/
def checkSemanticGrounding (text : String) (topChunks : List SourceChunk) : ℚ :=
  let generatedConcepts := extractConcepts text
  if generatedConcepts.card = 0 then 1/2
  else
    let overlapSum := (topChunks.take 3).foldl
      (fun acc ch =>
        let chunkConcepts := extractConcepts ch.text
        let conceptOverlap := generatedConcepts ∩ chunkConcepts
        if conceptOverlap ≠ ∅ then
          acc + (conceptOverlap.card : ℚ) / generatedConcepts.card
        else acc) 0
    min 1 (overlapSum / 3)

/-- Result dictionary of `verify_grounding`. Keys present only on some paths
are modelled as `Option` fields. -/
structure GroundingResult where
  grounded : Bool
  score : ℚ
  overlappingTokens : Finset String
  overlapCount : Option ℕ
  overlapRatio : ℚ
  contentTokensCount : Option ℕ
  chunkCoverage : List ChunkOverlap
  semanticScore : Option ℚ
  minTokensMet : Option Bool
  minRatioMet : Option Bool
  error : Option String
deriving DecidableEq

/-- The early-return dictionaries of `verify_grounding` for degenerate input. -/
def degenerateResult (msg : String) : GroundingResult :=
  { grounded := false, score := 0, overlappingTokens := ∅, overlapCount := none,
    overlapRatio := 0, contentTokensCount := none, chunkCoverage := [],
    semanticScore := none, minTokensMet := none, minRatioMet := none,
    error := some msg }

/-- Embedding of `GroundingVerifier.verify_grounding`. -/
def verifyGrounding (v : GroundingVerifier) (generatedText : String)
    (topChunks : List SourceChunk) : GroundingResult :=
  if generatedText = "" ∨ topChunks = [] then degenerateResult "Empty input"
  else
    let contentTokens := filterContentTokens (tokenizeText generatedText)
    if contentTokens = ∅ then degenerateResult "No content tokens found"
    else
      let chunkOverlaps := chunkOverlapList contentTokens 0 topChunks
      let allOverlap := allOverlappingTokens chunkOverlaps
      let totalOverlapCount := allOverlap.card
      let totalOverlapRat : ℚ :=
        if contentTokens.card = 0 then 0
        else (totalOverlapCount : ℚ) / contentTokens.card
      let groundingScore :=
        calculateGroundingScore v totalOverlapCount totalOverlapRat chunkOverlaps
      let semanticScore := checkSemanticGrounding generatedText topChunks
      { grounded := decide (v.minTokens ≤ totalOverlapCount) &&
          decide (v.minOverlapRatio ≤ totalOverlapRat)
        score := groundingScore * (7/10) + semanticScore * (3/10)
        overlappingTokens := allOverlap
        overlapCount := some totalOverlapCount
        overlapRatio := totalOverlapRat
        contentTokensCount := some contentTokens.card
        chunkCoverage := chunkOverlaps
        semanticScore := some semanticScore
        minTokensMet := some (decide (v.minTokens ≤ totalOverlapCount))
        minRatioMet := some (decide (v.minOverlapRatio ≤ totalOverlapRat))
        error := none }

/-- Embedding of `GroundingVerifier.improve_grounding`: when the text is not
grounded, append a clarifying clause naming up to three missing source
tokens (taken in sorted order, standing for Python's set order). -/
def improveGrounding (v : GroundingVerifier) (generatedText : String)
    (topChunks : List SourceChunk) : String :=
  let g := verifyGrounding v generatedText topChunks
  if g.grounded then generatedText
  else
    let sourceTokens := (topChunks.take 2).foldl
      (fun acc ch => acc ∪ filterContentTokens (tokenizeText ch.text)) ∅
    let generatedContent := filterContentTokens (tokenizeText generatedText)
    let missingTokens := sourceTokens \ generatedContent
    if missingTokens ≠ ∅ then
      let important := (missingTokens.sort (· ≤ ·)).take 3
      if important ≠ [] then
        generatedText ++ " This relates to concepts like " ++
          String.intercalate ", " important ++ "."
      else generatedText
    else generatedText

/-- Template-selection actions of the policy (`PolicyAction` in `rl_policy.py`). -/
inductive PolicyAction
  | EXPLAIN
  | COMPARE
  | EXAMPLE
  | EXTRACTIVE
deriving DecidableEq

/-- String value of each enum member. -/
def PolicyAction.value : PolicyAction → String
  | .EXPLAIN => "explain"
  | .COMPARE => "compare"
  | .EXAMPLE => "example"
  | .EXTRACTIVE => "extractive"

/-- Construction of a `PolicyAction` from its value (`PolicyAction(s)` in
Python); `none` models the `ValueError` raised for an unknown value. -/
def PolicyAction.fromValue (s : String) : Option PolicyAction :=
  if s = "explain" then some .EXPLAIN
  else if s = "compare" then some .COMPARE
  else if s = "example" then some .EXAMPLE
  else if s = "extractive" then some .EXTRACTIVE
  else none

/-- Declaration-order list of all actions (`list(PolicyAction)`). -/
def policyActionList : List PolicyAction :=
  [.EXPLAIN, .COMPARE, .EXAMPLE, .EXTRACTIVE]

/-- Lookup in an insertion-ordered string-keyed mapping (`d.get(k, dflt)`
or `d[k]` on a `defaultdict`). -/
def dictGet {α : Type} (d : List (String × α)) (k : String) (dflt : α) : α :=
  match d.find? fun e => e.1 == k with
  | some e => e.2
  | none => dflt

/-- Key-presence test (`k in d`). -/
def dictMem {α : Type} (d : List (String × α)) (k : String) : Bool :=
  d.any fun e => e.1 == k

/-- Update of an insertion-ordered mapping (`d[k] = v`): an existing key
keeps its position, a new key is appended. -/
def dictSet {α : Type} (d : List (String × α)) (k : String) (v : α) :
    List (String × α) :=
  if dictMem d k then d.map fun e => if e.1 == k then (k, v) else e
  else d ++ [(k, v)]

/-- Read access `q_values[ck][a]` on the nested `defaultdict`: returns the
stored value (default 0.0) and the table after the access, which inserts
the default for a missing key — reading mutates the dict. -/
def ddAccess (q : List (String × List (String × ℚ))) (ck a : String) :
    ℚ × List (String × List (String × ℚ)) :=
  let inner := dictGet q ck []
  let v := dictGet inner a 0
  let inner' := if dictMem inner a then inner else inner ++ [(a, 0)]
  (v, dictSet q ck inner')

/-- Increment `action_counts[ck][a] += 1` on the nested `defaultdict(int)`. -/
def ddIncr (d : List (String × List (String × ℕ))) (ck a : String) :
    List (String × List (String × ℕ)) :=
  let inner := dictGet d ck []
  dictSet d ck (dictSet inner a (dictGet inner a 0 + 1))

/-- Metadata dictionary returned by `select_action`. Keys present only on
some paths are `Option` fields; the `timestamp` entry (a wall-clock
reading that no consumer of the metadata uses) is not modelled. -/
structure ActionMetadata where
  action : String
  contextKey : Option String
  selectionMethod : String
  qValue : Option ℚ
  actionCount : Option ℕ
  epsilon : Option ℚ
  error : Option String
deriving DecidableEq

/-- An experience-replay record of `update_policy`; its `timestamp` and the
opaque `final_state` dictionary (kept only for logging) are not modelled. -/
structure Experience where
  traceId : String
  contextKey : String
  action : String
  reward : ℚ
  qValueOld : ℚ
  qValueNew : ℚ
deriving DecidableEq

/-- State of `RLPolicy`. `reward_history` and `action_history` are plain
Python lists on the fresh-start path of `__init__` (they become bounded
deques only when `_load_policy` restores a snapshot from disk). -/
structure RLPolicy where
  epsilon : ℚ
  learningRate : ℚ
  experienceBuffer : List Experience
  qValues : List (String × List (String × ℚ))
  actionCounts : List (String × List (String × ℕ))
  rewardHistory : List ℚ
  actionHistory : List String
  totalActions : ℕ
  successfulActions : ℕ
deriving DecidableEq

/-- A freshly constructed `RLPolicy()` with no snapshot on disk:
epsilon 0.1, learning rate 0.01, empty tables and histories. -/
def freshPolicy : RLPolicy :=
  { epsilon := 1/10, learningRate := 1/100, experienceBuffer := [],
    qValues := [], actionCounts := [], rewardHistory := [],
    actionHistory := [], totalActions := 0, successfulActions := 0 }

/-- Context features handed to `select_action` by the composer. -/
structure PolicyContext where
  extractiveAnswer : String
  topChunks : List SourceChunk
  lang : String
deriving DecidableEq

/-- Embedding of `RLPolicy._extract_context_key`. -/
def extractContextKey (context : PolicyContext) : String :=
  let extractiveLength := context.extractiveAnswer.length
  let chunkCount := context.topChunks.length
  let lengthCat :=
    if extractiveLength < 50 then "short"
    else if extractiveLength < 150 then "medium"
    else "long"
  let chunkCat :=
    if chunkCount ≤ 1 then "single"
    else if chunkCount ≤ 3 then "few"
    else "many"
  context.lang ++ "_" ++ lengthCat ++ "_" ++ chunkCat

/-- Embedding of `RLPolicy._get_best_action`. The fold mirrors the strict
`>` comparison against an initial −∞, so the first key of maximal Q-value
wins; a stored action string that is not a valid `PolicyAction` value
raises `ValueError`, modelled as `Except.error`. -/
def getBestAction (q : List (String × List (String × ℚ))) (contextKey : String) :
    Except String PolicyAction :=
  if ¬ dictMem q contextKey then .ok .EXPLAIN
  else
    let best := (dictGet q contextKey []).foldl
      (fun b e =>
        match b with
        | none => some e
        | some be => if e.2 > be.2 then some e else b) none
    match best with
    | none => .ok .EXPLAIN
    | some (a, _) =>
      if a = "" then .ok .EXPLAIN
      else
        match PolicyAction.fromValue a with
        | some act => .ok act
        | none => .error (a ++ " is not a valid PolicyAction")

/-- Embedding of `RLPolicy.select_action`. `rand` is the `random.random()`
draw and `choice` the index of `random.choice(list(PolicyAction))`; the
`try/except` of the source catches the failure of `_get_best_action`
(which occurs before any state mutation) and returns the EXPLAIN fallback
with the error message, leaving the policy unchanged. -/
def selectAction (p : RLPolicy) (context : PolicyContext) (rand : ℚ)
    (choice : Fin 4) : (PolicyAction × ActionMetadata) × RLPolicy :=
  let contextKey := extractContextKey context
  let chosen : Except String (PolicyAction × String) :=
    if rand < p.epsilon then
      .ok (policyActionList.get ⟨choice.val, by simp [policyActionList]⟩,
        "exploration")
    else (getBestAction p.qValues contextKey).map fun a => (a, "exploitation")
  match chosen with
  | .error e =>
    ((.EXPLAIN,
      { action := PolicyAction.EXPLAIN.value, contextKey := none,
        selectionMethod := "fallback", qValue := none, actionCount := none,
        epsilon := none, error := some e }), p)
  | .ok (action, selectionMethod) =>
    let counts := ddIncr p.actionCounts contextKey action.value
    let qAccess := ddAccess p.qValues contextKey action.value
    let metadata : ActionMetadata :=
      { action := action.value, contextKey := some contextKey,
        selectionMethod := selectionMethod, qValue := some qAccess.1,
        actionCount := some (dictGet (dictGet counts contextKey []) action.value 0),
        epsilon := some p.epsilon, error := none }
    ((action, metadata),
      { p with actionCounts := counts, qValues := qAccess.2,
               totalActions := p.totalActions + 1 })

/-- Append to a `deque(maxlen := cap)`: the oldest entry is discarded when
the buffer is full. -/
def dequePush {α : Type} (cap : ℕ) (l : List α) (x : α) : List α :=
  let l' := l ++ [x]
  l'.drop (l'.length - cap)

/-- Embedding of `RLPolicy._update_epsilon`, applied to the reward history
after the current reward was appended. -/
def updateEpsilon (rewardHistory : List ℚ) (eps : ℚ) : ℚ :=
  if 10 ≤ rewardHistory.length then
    let recentPerformance :=
      (rewardHistory.drop (rewardHistory.length - 10)).sum / 10
    if recentPerformance > 8/10 then max (5/100) (eps * (99/100))
    else if recentPerformance < 1/2 then min (3/10) (eps * (101/100))
    else eps
  else eps

/-- Embedding of `RLPolicy.update_policy`: TD update of the Q-value, history
appends, success tracking, experience push and epsilon adaptation. The
periodic `_save_policy` call is a write to the external snapshot
collaborator and does not change the in-memory state. -/
def updatePolicy (p : RLPolicy) (traceId : String) (meta : ActionMetadata)
    (reward : ℚ) : RLPolicy :=
  let contextKey := meta.contextKey.getD "default"
  let action := meta.action
  let qAccess := ddAccess p.qValues contextKey action
  let currentQ := qAccess.1
  let newQ := currentQ + p.learningRate * (reward - currentQ)
  let qValues :=
    dictSet qAccess.2 contextKey (dictSet (dictGet qAccess.2 contextKey []) action newQ)
  let rewardHistory := p.rewardHistory ++ [reward]
  let actionHistory := p.actionHistory ++ [action]
  let successfulActions :=
    if reward > 7/10 then p.successfulActions + 1 else p.successfulActions
  let exp : Experience :=
    { traceId, contextKey, action, reward, qValueOld := currentQ, qValueNew := newQ }
  let experienceBuffer := dequePush 1000 p.experienceBuffer exp
  let epsilon := updateEpsilon rewardHistory p.epsilon
  { p with epsilon, qValues, rewardHistory, actionHistory, successfulActions,
           experienceBuffer }

/-- A sequence of `update_policy` calls applied in order. -/
def applyUpdates (p : RLPolicy) (updates : List (String × ActionMetadata × ℚ)) :
    RLPolicy :=
  updates.foldl (fun q u => updatePolicy q u.1 u.2.1 u.2.2) p

/-- Language code of a composition request (`lang: enum{EN,HI}` in the
spec's data model). -/
inductive Lang
  | EN
  | HI
deriving DecidableEq

/-- The language code as the string the source passes around. -/
def Lang.str : Lang → String
  | .EN => "EN"
  | .HI => "HI"

/-- Template kinds of `templates.py`. -/
inductive TemplateType
  | EXPLAIN
  | COMPARE
  | EXAMPLE
  | EXTRACTIVE
deriving DecidableEq

/-- A template entry of `TemplateEngine._initialize_templates`; its pattern
string is consumed only by the external renderer and is not modelled. -/
structure Template where
  id : String
  ttype : TemplateType
deriving DecidableEq

/-- The template table of `_initialize_templates`, keyed by language and type. -/
def templateFor (lang : Lang) (t : TemplateType) : Template :=
  match lang, t with
  | .EN, .EXPLAIN => ⟨"explain_en", .EXPLAIN⟩
  | .EN, .COMPARE => ⟨"compare_en", .COMPARE⟩
  | .EN, .EXAMPLE => ⟨"example_en", .EXAMPLE⟩
  | .EN, .EXTRACTIVE => ⟨"extractive_en", .EXTRACTIVE⟩
  | .HI, .EXPLAIN => ⟨"explain_hi", .EXPLAIN⟩
  | .HI, .COMPARE => ⟨"compare_hi", .COMPARE⟩
  | .HI, .EXAMPLE => ⟨"example_hi", .EXAMPLE⟩
  | .HI, .EXTRACTIVE => ⟨"extractive_hi", .EXTRACTIVE⟩

/-- Embedding of `TemplateEngine.get_explain_template`. -/
def getExplainTemplate (lang : Lang) : String × Template :=
  let t := templateFor lang .EXPLAIN
  (t.id, t)

/-- Embedding of `TemplateEngine.get_compare_template`. -/
def getCompareTemplate (lang : Lang) : String × Template :=
  let t := templateFor lang .COMPARE
  (t.id, t)

/-- Embedding of `TemplateEngine.get_example_template`. -/
def getExampleTemplate (lang : Lang) : String × Template :=
  let t := templateFor lang .EXAMPLE
  (t.id, t)

/-- Embedding of `TemplateEngine.get_extractive_fallback`. -/
def getExtractiveFallback (lang : Lang) : String × Template :=
  let t := templateFor lang .EXTRACTIVE
  (t.id, t)

/-- Keywords of `_analyze_content_for_template` suggesting EXPLAIN. -/
def explainKeywords : List String :=
  ["what", "how", "why", "क्या", "कैसे", "क्यों", "explain", "meaning", "definition"]

/-- Keywords of `_analyze_content_for_template` suggesting COMPARE. -/
def compareKeywords : List String :=
  ["different", "compare", "versus", "vs", "अंतर", "तुलना", "difference", "contrast"]

/-- Keywords of `_analyze_content_for_template` suggesting EXAMPLE. -/
def exampleKeywords : List String :=
  ["example", "instance", "for example", "such as", "उदाहरण", "जैसे", "like"]

/-- Count of keywords occurring as substrings of the given text
(`sum(1 for keyword in keywords if keyword in text)`). -/
def keywordScore (keywords : List String) (text : String) : ℕ :=
  (keywords.filter fun k => strIncludes text k).length

/-- Embedding of `TemplateEngine._analyze_content_for_template`: keyword
scores over the lowercased answer plus half-weight scores over the joined
top-3 chunk text; ties resolved in dict insertion order
EXPLAIN, COMPARE, EXAMPLE; EXPLAIN when no keyword signal. -/
def analyzeContentForTemplate (extractiveAnswer : String)
    (topChunks : List SourceChunk) : TemplateType :=
  let answerLower := strLower extractiveAnswer
  let chunkText :=
    strLower (String.intercalate " " ((topChunks.take 3).map fun c => c.text))
  let explainScore : ℚ := (keywordScore explainKeywords answerLower : ℚ) +
    (keywordScore explainKeywords chunkText : ℚ) * (1/2)
  let compareScore : ℚ := (keywordScore compareKeywords answerLower : ℚ) +
    (keywordScore compareKeywords chunkText : ℚ) * (1/2)
  let exampleScore : ℚ := (keywordScore exampleKeywords answerLower : ℚ) +
    (keywordScore exampleKeywords chunkText : ℚ) * (1/2)
  let maxScore := max explainScore (max compareScore exampleScore)
  if 0 < maxScore then
    if explainScore ≥ compareScore ∧ explainScore ≥ exampleScore then .EXPLAIN
    else if compareScore ≥ exampleScore then .COMPARE
    else .EXAMPLE
  else .EXPLAIN

/-- Embedding of `TemplateEngine.select_template` (content-based selection);
with the language typed as the spec's enum its `except` branch is
unreachable. -/
def selectTemplate (extractiveAnswer : String) (topChunks : List SourceChunk)
    (lang : Lang) : String × Template :=
  let t := templateFor lang (analyzeContentForTemplate extractiveAnswer topChunks)
  (t.id, t)

/-- Embedding of `Composer._is_template_suitable`. -/
def isTemplateSuitable (templateId : String) (extractiveAnswer : String)
    (topChunks : List SourceChunk) : Bool :=
  let answerLength := extractiveAnswer.length
  let chunkCount := topChunks.length
  if strIncludes templateId "compare" && decide (chunkCount < 2) then false
  else if strIncludes templateId "example" && decide (answerLength < 30) then false
  else true

/-- The action-to-template mapping of `compose` (lines 63–71). -/
def mapActionToTemplate (a : PolicyAction) (lang : Lang) : String × Template :=
  match a with
  | .EXPLAIN => getExplainTemplate lang
  | .COMPARE => getCompareTemplate lang
  | .EXAMPLE => getExampleTemplate lang
  | .EXTRACTIVE => getExtractiveFallback lang

/-- The template actually handed to rendering by `compose` (lines 63–78):
the policy's choice, overridden by content-based selection when
`_is_template_suitable` rejects it. -/
def chooseTemplate (rlAction : PolicyAction) (extractiveAnswer : String)
    (topChunks : List SourceChunk) (lang : Lang) : String × Template :=
  let picked := mapActionToTemplate rlAction lang
  if ¬ isTemplateSuitable picked.1 extractiveAnswer topChunks then
    selectTemplate extractiveAnswer topChunks lang
  else picked

/-- A citation entry of `Composer._extract_citations`. -/
structure Citation where
  id : ℕ
  source : String
  textPreview : String
  score : ℚ
deriving DecidableEq

/-- Embedding of `Composer._extract_citations`: top three chunks in input
order, previews truncated to 100 characters. -/
def extractCitations (topChunks : List SourceChunk) : List Citation :=
  (topChunks.take 3).enum.map fun e =>
    { id := e.1 + 1
      source := e.2.source.getD "Unknown"
      textPreview :=
        if 100 < e.2.text.length then e.2.text.take 100 ++ "..." else e.2.text
      score := e.2.score }

/-- Result dictionary of `Composer.compose`. Keys present only on one path
(`grounding_attempts` and the RL fields on success, `error` on failure)
are `Option` fields; the diagnostic `policy_stats` dump is not modelled. -/
structure ComposeResult where
  traceId : String
  finalText : String
  templateId : String
  grounded : Bool
  groundingScore : ℚ
  overlappingTokens : Finset String
  compositionTimeMs : ℚ
  lang : Lang
  method : String
  citations : List Citation
  groundingAttempts : Option ℕ
  rlAction : Option String
  rlMetadata : Option ActionMetadata
  rlReward : Option ℚ
  error : Option String
deriving DecidableEq

/-- User feedback consumed by `calculate_reward` (`feedback.get('rating', 0)`). -/
structure Feedback where
  rating : ℤ
deriving DecidableEq

/-- Embedding of `calculate_reward` in `rl_policy.py`: grounding bonus,
score share, latency tiers, optional feedback adjustment, clamp to [0, 1]. -/
def calculateReward (result : ComposeResult) (feedback : Option Feedback) : ℚ :=
  let r1 : ℚ := if result.grounded then 4/10 else 0
  let r2 := r1 + result.groundingScore * (3/10)
  let t := result.compositionTimeMs
  let r3 := r2 + (if t < 50 then (2/10 : ℚ) else if t < 100 then 1/10 else 0)
  let r4 :=
    match feedback with
    | some f =>
      if 4 ≤ f.rating then r3 + 3/10
      else if 3 ≤ f.rating then r3 + 1/10
      else r3 - 1/10
    | none => r3
  max 0 (min 1 r4)

/-- The `except` branch of `Composer.compose`: the error-fallback result. -/
def errorFallbackResult (traceId extractiveAnswer : String)
    (topChunks : List SourceChunk) (lang : Lang) (elapsedMs : ℚ)
    (msg : String) : ComposeResult :=
  { traceId, finalText := extractiveAnswer, templateId := "error_fallback",
    grounded := false, groundingScore := 0, overlappingTokens := ∅,
    compositionTimeMs := elapsedMs, lang, method := "error_fallback",
    citations := if topChunks = [] then [] else extractCitations topChunks,
    groundingAttempts := none, rlAction := none, rlMetadata := none,
    rlReward := none, error := some msg }

/-- The rendering collaborators of the orchestrator, which the spec places
out of scope and treats as pure functions: the template renderer
(`TemplateEngine.apply_template`), the fluency smoother
(`NGramScorer.smooth_text`) and the optional GRU enhancement stage
(`GRUStub`, whose availability flag is false for the shipped stub). -/
structure RenderOps where
  applyTemplate : Template → String → List SourceChunk → Lang → String
  smoothText : String → Lang → String
  gruAvailable : Bool
  gruEnhance : String → List SourceChunk → Lang → String

/-- Embedding of `Composer._try_gru_enhancement`: enhancement is strictly
best-effort and the input text is kept when the model is unavailable. -/
def tryGruEnhancement (ops : RenderOps) (text : String)
    (topChunks : List SourceChunk) (lang : Lang) : String :=
  if ops.gruAvailable then ops.gruEnhance text topChunks lang else text

/-- MAX_ATTEMPTS of the grounding retry loop (`max_grounding_attempts`). -/
def maxGroundingAttempts : ℕ := 3

/-- One fallback step of the retry loop of `Composer.compose`: attempt 1
re-renders with the extractive template (updating the template id),
attempt 2 runs `improve_grounding` on the current text. -/
def fallbackStep (ops : RenderOps) (extractiveAnswer : String)
    (topChunks : List SourceChunk) (lang : Lang) (templateId : String)
    (finalText : String) (attempts : ℕ) : String × String :=
  if attempts = 1 then
    let fb := getExtractiveFallback lang
    (fb.1, ops.applyTemplate fb.2 extractiveAnswer topChunks lang)
  else if attempts = 2 then
    (templateId, improveGrounding defaultVerifier finalText topChunks)
  else (templateId, finalText)

/-- The progressive-fallback retry loop of `Composer.compose` (lines
100–119). Returns the final template id, final text, last grounding
result, final attempts counter, and — as instrumentation for the resource
bound — the number of `verify_grounding` calls the loop itself makes. -/
def groundingLoop (ops : RenderOps) (extractiveAnswer : String)
    (topChunks : List SourceChunk) (lang : Lang) (templateId : String)
    (finalText : String) (g : GroundingResult) (attempts : ℕ) :
    String × String × GroundingResult × ℕ × ℕ :=
  if h : g.grounded = false ∧ attempts < maxGroundingAttempts then
    match groundingLoop ops extractiveAnswer topChunks lang
      (fallbackStep ops extractiveAnswer topChunks lang templateId finalText attempts).1
      (fallbackStep ops extractiveAnswer topChunks lang templateId finalText attempts).2
      (verifyGrounding defaultVerifier
        (fallbackStep ops extractiveAnswer topChunks lang templateId finalText attempts).2
        topChunks)
      (attempts + 1) with
    | (tid2, text2, g2, att2, calls2) => (tid2, text2, g2, att2, calls2 + 1)
  else (templateId, finalText, g, attempts, 0)
termination_by maxGroundingAttempts - attempts
decreasing_by
  have := h.2
  omega

/-- Embedding of `Composer.compose`. `rand`/`choice` are the policy's random
draws and `elapsedMs` the measured composition time. The third component
of the result counts the calls `compose` makes to `verify_grounding`
(the VERIFY steps of the state machine). -/
def compose (ops : RenderOps) (p : RLPolicy) (traceId extractiveAnswer : String)
    (topChunks : List SourceChunk) (lang : Lang) (rand : ℚ) (choice : Fin 4)
    (elapsedMs : ℚ) : ComposeResult × RLPolicy × ℕ :=
  if extractiveAnswer = "" ∨ topChunks = [] then
    (errorFallbackResult traceId extractiveAnswer topChunks lang elapsedMs
      "extractive_answer and top_chunks are required", p, 0)
  else
    let policyContext : PolicyContext :=
      { extractiveAnswer, topChunks, lang := lang.str }
    let sel := selectAction p policyContext rand choice
    let rlAction := sel.1.1
    let actionMetadata := sel.1.2
    let chosen := chooseTemplate rlAction extractiveAnswer topChunks lang
    let composedText := ops.applyTemplate chosen.2 extractiveAnswer topChunks lang
    let smoothedText := ops.smoothText composedText lang
    let finalText := tryGruEnhancement ops smoothedText topChunks lang
    let groundingResult := verifyGrounding defaultVerifier finalText topChunks
    let loop := groundingLoop ops extractiveAnswer topChunks lang chosen.1
      finalText groundingResult 1
    let result : ComposeResult :=
      { traceId, finalText := loop.2.1, templateId := loop.1,
        grounded := loop.2.2.1.grounded, groundingScore := loop.2.2.1.score,
        overlappingTokens := loop.2.2.1.overlappingTokens,
        compositionTimeMs := elapsedMs, lang,
        method := if ops.gruAvailable then "gru" else "ngram_template",
        citations := extractCitations topChunks,
        groundingAttempts := some loop.2.2.2.1,
        rlAction := some rlAction.value, rlMetadata := some actionMetadata,
        rlReward := none, error := none }
    let reward := calculateReward result none
    let p2 := updatePolicy sel.2 traceId actionMetadata reward
    ({ result with rlReward := some reward }, p2, 1 + loop.2.2.2.2)

/-! Helper lemmas about the overlap accumulation of `verify_grounding`. -/

theorem foldlUnion_subset (l : List ChunkOverlap) :
    ∀ (init s : Finset String), init ⊆ s →
      (∀ o ∈ l, o.overlappingTokens ⊆ s) →
      l.foldl (fun acc o => acc ∪ o.overlappingTokens) init ⊆ s := by
  induction l with
  | nil => intro init s hi _; simpa using hi
  | cons o rest ih =>
    intro init s hi ho
    simp only [List.foldl_cons]
    exact ih _ s (Finset.union_subset hi (ho o (by simp)))
      fun o' h' => ho o' (by simp [h'])

theorem mem_foldlUnion (l : List ChunkOverlap) :
    ∀ (init : Finset String) (t : String),
      (t ∈ l.foldl (fun acc o => acc ∪ o.overlappingTokens) init) ↔
        t ∈ init ∨ ∃ o ∈ l, t ∈ o.overlappingTokens := by
  induction l with
  | nil => simp
  | cons o rest ih =>
    intro init t
    simp only [List.foldl_cons, ih, Finset.mem_union, List.mem_cons]
    constructor
    · rintro ((h | h) | ⟨o', ho', ht⟩)
      · exact Or.inl h
      · exact Or.inr ⟨o, Or.inl rfl, h⟩
      · exact Or.inr ⟨o', Or.inr ho', ht⟩
    · rintro (h | ⟨o', (rfl | ho'), ht⟩)
      · exact Or.inl (Or.inl h)
      · exact Or.inl (Or.inr ht)
      · exact Or.inr ⟨o', ho', ht⟩

theorem mem_chunkOverlapList (content : Finset String) :
    ∀ (chunks : List SourceChunk) (i : ℕ) (o : ChunkOverlap),
      o ∈ chunkOverlapList content i chunks →
        ∃ c ∈ chunks, c.text ≠ "" ∧ ∃ j, o = mkChunkOverlap content j c := by
  intro chunks
  induction chunks with
  | nil => intro i o h; simp [chunkOverlapList] at h
  | cons c rest ih =>
    intro i o h
    by_cases hc : c.text = ""
    · simp only [chunkOverlapList, if_pos hc] at h
      obtain ⟨c', hc', hne, j, rfl⟩ := ih (i + 1) o h
      exact ⟨c', by simp [hc'], hne, j, rfl⟩
    · simp only [chunkOverlapList, if_neg hc, List.mem_cons] at h
      rcases h with rfl | h
      · exact ⟨c, by simp, hc, i, rfl⟩
      · obtain ⟨c', hc', hne, j, rfl⟩ := ih (i + 1) o h
        exact ⟨c', by simp [hc'], hne, j, rfl⟩

theorem chunkOverlapList_overlap_subset (content : Finset String)
    (chunks : List SourceChunk) (i : ℕ) (o : ChunkOverlap)
    (h : o ∈ chunkOverlapList content i chunks) : o.overlappingTokens ⊆ content := by
  obtain ⟨c, _, _, j, rfl⟩ := mem_chunkOverlapList content chunks i o h
  simp only [mkChunkOverlap]
  exact Finset.inter_subset_left

theorem allOverlappingTokens_subset (content : Finset String)
    (chunks : List SourceChunk) (i : ℕ) :
    allOverlappingTokens (chunkOverlapList content i chunks) ⊆ content :=
  foldlUnion_subset _ _ _ (Finset.empty_subset _)
    fun o ho => chunkOverlapList_overlap_subset content chunks i o ho

theorem chunkOverlapList_mem_append (content : Finset String) (c : SourceChunk) :
    ∀ (chunks : List SourceChunk) (i : ℕ) (o : ChunkOverlap),
      o ∈ chunkOverlapList content i chunks →
        o ∈ chunkOverlapList content i (chunks ++ [c]) := by
  intro chunks
  induction chunks with
  | nil => intro i o h; simp [chunkOverlapList] at h
  | cons d rest ih =>
    intro i o h
    by_cases hd : d.text = ""
    · simp only [chunkOverlapList, if_pos hd] at h ⊢
      exact ih (i + 1) o h
    · simp only [chunkOverlapList, if_neg hd, List.mem_cons] at h ⊢
      rcases h with rfl | h
      · exact Or.inl rfl
      · exact Or.inr (ih (i + 1) o h)

theorem allOverlappingTokens_mono_append (content : Finset String)
    (chunks : List SourceChunk) (c : SourceChunk) (i : ℕ) :
    allOverlappingTokens (chunkOverlapList content i chunks) ⊆
      allOverlappingTokens (chunkOverlapList content i (chunks ++ [c])) := by
  intro t ht
  rw [allOverlappingTokens, mem_foldlUnion] at ht ⊢
  rcases ht with h | ⟨o, ho, hto⟩
  · simp at h
  · exact Or.inr ⟨o, chunkOverlapList_mem_append content c chunks i o ho, hto⟩

/-! Helper lemmas about the score arithmetic of `verify_grounding`. -/

theorem calculateGroundingScore_bounds (v : GroundingVerifier) (n : ℕ) (r : ℚ)
    (l : List ChunkOverlap) :
    0 ≤ calculateGroundingScore v n r l ∧ calculateGroundingScore v n r l ≤ 1 := by
  unfold calculateGroundingScore
  split_ifs
  · norm_num
  all_goals exact ⟨le_sup_left, sup_le zero_le_one inf_le_left⟩

theorem semanticFold_nonneg (gc : Finset String) :
    ∀ (l : List SourceChunk) (acc : ℚ), 0 ≤ acc →
      0 ≤ l.foldl
        (fun acc ch =>
          let chunkConcepts := extractConcepts ch.text
          let conceptOverlap := gc ∩ chunkConcepts
          if conceptOverlap ≠ ∅ then acc + (conceptOverlap.card : ℚ) / gc.card
          else acc) acc := by
  intro l
  induction l with
  | nil => intro acc h; simpa using h
  | cons ch rest ih =>
    intro acc h
    simp only [List.foldl_cons]
    apply ih
    dsimp only
    split_ifs
    · exact add_nonneg h (div_nonneg (Nat.cast_nonneg _) (Nat.cast_nonneg _))
    · exact h

theorem checkSemanticGrounding_bounds (text : String) (chunks : List SourceChunk) :
    0 ≤ checkSemanticGrounding text chunks ∧ checkSemanticGrounding text chunks ≤ 1 := by
  unfold checkSemanticGrounding
  dsimp only
  split_ifs
  · norm_num
  · refine ⟨le_min zero_le_one ?_, min_le_left 1 _⟩
    have h := semanticFold_nonneg (extractConcepts text) (chunks.take 3) 0 le_rfl
    positivity

theorem verifyGrounding_of_empty (v : GroundingVerifier) (text : String)
    (chunks : List SourceChunk) (h : text = "" ∨ chunks = []) :
    verifyGrounding v text chunks = degenerateResult "Empty input" := by
  unfold verifyGrounding
  rw [if_pos h]

theorem verifyGrounding_of_noContent (v : GroundingVerifier) (text : String)
    (chunks : List SourceChunk) (h1 : ¬(text = "" ∨ chunks = []))
    (h2 : filterContentTokens (tokenizeText text) = ∅) :
    verifyGrounding v text chunks = degenerateResult "No content tokens found" := by
  unfold verifyGrounding
  rw [if_neg h1, if_pos h2]

/-- The non-degenerate branch of `verify_grounding`, with every `let`
inlined, for use in the proofs below. -/
theorem verifyGrounding_main (v : GroundingVerifier) (text : String)
    (chunks : List SourceChunk) (h1 : ¬(text = "" ∨ chunks = []))
    (h2 : ¬filterContentTokens (tokenizeText text) = ∅) :
    verifyGrounding v text chunks =
      { grounded := decide (v.minTokens ≤
            (allOverlappingTokens (chunkOverlapList (filterContentTokens (tokenizeText text)) 0 chunks)).card) &&
          decide (v.minOverlapRatio ≤
            if (filterContentTokens (tokenizeText text)).card = 0 then 0 else
            ((allOverlappingTokens (chunkOverlapList (filterContentTokens (tokenizeText text)) 0 chunks)).card : ℚ) /
              (filterContentTokens (tokenizeText text)).card)
        score := calculateGroundingScore v
            (allOverlappingTokens (chunkOverlapList (filterContentTokens (tokenizeText text)) 0 chunks)).card
            (if (filterContentTokens (tokenizeText text)).card = 0 then 0 else
              ((allOverlappingTokens (chunkOverlapList (filterContentTokens (tokenizeText text)) 0 chunks)).card : ℚ) /
              (filterContentTokens (tokenizeText text)).card)
            (chunkOverlapList (filterContentTokens (tokenizeText text)) 0 chunks) * (7/10) +
          checkSemanticGrounding text chunks * (3/10)
        overlappingTokens :=
          allOverlappingTokens (chunkOverlapList (filterContentTokens (tokenizeText text)) 0 chunks)
        overlapCount := some
          (allOverlappingTokens (chunkOverlapList (filterContentTokens (tokenizeText text)) 0 chunks)).card
        overlapRatio :=
          if (filterContentTokens (tokenizeText text)).card = 0 then 0 else
          ((allOverlappingTokens (chunkOverlapList (filterContentTokens (tokenizeText text)) 0 chunks)).card : ℚ) /
            (filterContentTokens (tokenizeText text)).card
        contentTokensCount := some (filterContentTokens (tokenizeText text)).card
        chunkCoverage := chunkOverlapList (filterContentTokens (tokenizeText text)) 0 chunks
        semanticScore := some (checkSemanticGrounding text chunks)
        minTokensMet := some (decide (v.minTokens ≤
          (allOverlappingTokens (chunkOverlapList (filterContentTokens (tokenizeText text)) 0 chunks)).card))
        minRatioMet := some (decide (v.minOverlapRatio ≤
          if (filterContentTokens (tokenizeText text)).card = 0 then 0 else
          ((allOverlappingTokens (chunkOverlapList (filterContentTokens (tokenizeText text)) 0 chunks)).card : ℚ) /
            (filterContentTokens (tokenizeText text)).card))
        error := none } := by
  unfold verifyGrounding
  rw [if_neg h1, if_neg h2]

theorem verify_card_ne_zero (text : String)
    (h2 : ¬filterContentTokens (tokenizeText text) = ∅) :
    ¬(filterContentTokens (tokenizeText text)).card = 0 :=
  fun hc => h2 (Finset.card_eq_zero.mp hc)

theorem verify_main_overlapRatio (v : GroundingVerifier) (text : String)
    (chunks : List SourceChunk) (h1 : ¬(text = "" ∨ chunks = []))
    (h2 : ¬filterContentTokens (tokenizeText text) = ∅) :
    (verifyGrounding v text chunks).overlapRatio =
      ((allOverlappingTokens (chunkOverlapList (filterContentTokens (tokenizeText text)) 0 chunks)).card : ℚ) /
        (filterContentTokens (tokenizeText text)).card := by
  rw [verifyGrounding_main v text chunks h1 h2]
  exact if_neg (verify_card_ne_zero text h2)

theorem verify_main_overlappingTokens (v : GroundingVerifier) (text : String)
    (chunks : List SourceChunk) (h1 : ¬(text = "" ∨ chunks = []))
    (h2 : ¬filterContentTokens (tokenizeText text) = ∅) :
    (verifyGrounding v text chunks).overlappingTokens =
      allOverlappingTokens (chunkOverlapList (filterContentTokens (tokenizeText text)) 0 chunks) := by
  rw [verifyGrounding_main v text chunks h1 h2]

theorem verify_main_grounded (v : GroundingVerifier) (text : String)
    (chunks : List SourceChunk) (h1 : ¬(text = "" ∨ chunks = []))
    (h2 : ¬filterContentTokens (tokenizeText text) = ∅) :
    (verifyGrounding v text chunks).grounded =
      (decide (v.minTokens ≤
          (allOverlappingTokens (chunkOverlapList (filterContentTokens (tokenizeText text)) 0 chunks)).card) &&
        decide (v.minOverlapRatio ≤
          ((allOverlappingTokens (chunkOverlapList (filterContentTokens (tokenizeText text)) 0 chunks)).card : ℚ) /
            (filterContentTokens (tokenizeText text)).card)) := by
  rw [verifyGrounding_main v text chunks h1 h2]
  rw [if_neg (verify_card_ne_zero text h2)]

theorem verify_main_score (v : GroundingVerifier) (text : String)
    (chunks : List SourceChunk) (h1 : ¬(text = "" ∨ chunks = []))
    (h2 : ¬filterContentTokens (tokenizeText text) = ∅) :
    (verifyGrounding v text chunks).score =
      calculateGroundingScore v
          (allOverlappingTokens (chunkOverlapList (filterContentTokens (tokenizeText text)) 0 chunks)).card
          (((allOverlappingTokens (chunkOverlapList (filterContentTokens (tokenizeText text)) 0 chunks)).card : ℚ) /
            (filterContentTokens (tokenizeText text)).card)
          (chunkOverlapList (filterContentTokens (tokenizeText text)) 0 chunks) * (7/10) +
        checkSemanticGrounding text chunks * (3/10) := by
  rw [verifyGrounding_main v text chunks h1 h2]
  rw [if_neg (verify_card_ne_zero text h2)]

theorem verify_overlapRatio_nonneg (v : GroundingVerifier) (text : String)
    (chunks : List SourceChunk) : 0 ≤ (verifyGrounding v text chunks).overlapRatio := by
  by_cases h1 : text = "" ∨ chunks = []
  · rw [verifyGrounding_of_empty v text chunks h1]; simp [degenerateResult]
  · by_cases h2 : filterContentTokens (tokenizeText text) = ∅
    · rw [verifyGrounding_of_noContent v text chunks h1 h2]; simp [degenerateResult]
    · rw [verify_main_overlapRatio v text chunks h1 h2]
      positivity

theorem verify_overlapRatio_le_one (v : GroundingVerifier) (text : String)
    (chunks : List SourceChunk) : (verifyGrounding v text chunks).overlapRatio ≤ 1 := by
  by_cases h1 : text = "" ∨ chunks = []
  · rw [verifyGrounding_of_empty v text chunks h1]; simp [degenerateResult]
  · by_cases h2 : filterContentTokens (tokenizeText text) = ∅
    · rw [verifyGrounding_of_noContent v text chunks h1 h2]; simp [degenerateResult]
    · rw [verify_main_overlapRatio v text chunks h1 h2]
      have hpos : (0 : ℚ) < (filterContentTokens (tokenizeText text)).card := by
        have := Finset.card_pos.mpr (Finset.nonempty_iff_ne_empty.mpr h2)
        exact_mod_cast this
      rw [div_le_one hpos]
      have hsub := allOverlappingTokens_subset
        (filterContentTokens (tokenizeText text)) chunks 0
      exact_mod_cast Finset.card_le_card hsub

/-- C6: for every candidate text and chunk list, the blended score and the
overlap ratio returned by `verify_grounding` both lie in [0, 1]. -/
theorem verify_score_and_ratio_bounds (text : String) (chunks : List SourceChunk) :
    0 ≤ (verifyGrounding defaultVerifier text chunks).score ∧
      (verifyGrounding defaultVerifier text chunks).score ≤ 1 ∧
      0 ≤ (verifyGrounding defaultVerifier text chunks).overlapRatio ∧
      (verifyGrounding defaultVerifier text chunks).overlapRatio ≤ 1 := by
  have hscore : 0 ≤ (verifyGrounding defaultVerifier text chunks).score ∧
      (verifyGrounding defaultVerifier text chunks).score ≤ 1 := by
    by_cases h1 : text = "" ∨ chunks = []
    · rw [verifyGrounding_of_empty _ _ _ h1]; simp [degenerateResult]
    · by_cases h2 : filterContentTokens (tokenizeText text) = ∅
      · rw [verifyGrounding_of_noContent _ _ _ h1 h2]; simp [degenerateResult]
      · rw [verify_main_score _ _ _ h1 h2]
        have hg := calculateGroundingScore_bounds defaultVerifier
          (allOverlappingTokens (chunkOverlapList (filterContentTokens (tokenizeText text)) 0 chunks)).card
          (((allOverlappingTokens (chunkOverlapList (filterContentTokens (tokenizeText text)) 0 chunks)).card : ℚ) /
            (filterContentTokens (tokenizeText text)).card)
          (chunkOverlapList (filterContentTokens (tokenizeText text)) 0 chunks)
        have hs := checkSemanticGrounding_bounds text chunks
        constructor
        · nlinarith [hg.1, hg.2, hs.1, hs.2]
        · nlinarith [hg.1, hg.2, hs.1, hs.2]
  exact ⟨hscore.1, hscore.2, verify_overlapRatio_nonneg _ _ _,
    verify_overlapRatio_le_one _ _ _⟩

/-- C1: `verify_grounding` reports `grounded = true` exactly when the global
overlapping-token set has at least MIN_TOKENS = 3 distinct tokens and the
overlap ratio is at least MIN_RATIO = 0.3. -/
theorem grounded_iff_thresholds (text : String) (chunks : List SourceChunk) :
    (verifyGrounding defaultVerifier text chunks).grounded = true ↔
      3 ≤ (verifyGrounding defaultVerifier text chunks).overlappingTokens.card ∧
        (3/10 : ℚ) ≤ (verifyGrounding defaultVerifier text chunks).overlapRatio := by
  by_cases h1 : text = "" ∨ chunks = []
  · rw [verifyGrounding_of_empty _ _ _ h1]; simp [degenerateResult]
  · by_cases h2 : filterContentTokens (tokenizeText text) = ∅
    · rw [verifyGrounding_of_noContent _ _ _ h1 h2]; simp [degenerateResult]
    · rw [verify_main_grounded _ _ _ h1 h2, verify_main_overlappingTokens _ _ _ h1 h2,
        verify_main_overlapRatio _ _ _ h1 h2]
      simp [defaultVerifier, Bool.and_eq_true, decide_eq_true_eq]

/-- C9: every token reported in `overlapping_tokens` is a content token of
the candidate text and a content token of at least one chunk with
non-empty text. -/
theorem overlap_tokens_supported (text : String) (chunks : List SourceChunk)
    (t : String) (h : t ∈ (verifyGrounding defaultVerifier text chunks).overlappingTokens) :
    t ∈ contentTokensOf text ∧
      ∃ c ∈ chunks, c.text ≠ "" ∧ t ∈ contentTokensOf c.text := by
  by_cases h1 : text = "" ∨ chunks = []
  · rw [verifyGrounding_of_empty _ _ _ h1] at h; simp [degenerateResult] at h
  · by_cases h2 : filterContentTokens (tokenizeText text) = ∅
    · rw [verifyGrounding_of_noContent _ _ _ h1 h2] at h; simp [degenerateResult] at h
    · rw [verify_main_overlappingTokens _ _ _ h1 h2] at h
      rw [allOverlappingTokens, mem_foldlUnion] at h
      rcases h with h | ⟨o, ho, hto⟩
      · simp at h
      · obtain ⟨c, hc, hne, j, rfl⟩ :=
          mem_chunkOverlapList (filterContentTokens (tokenizeText text)) chunks 0 o ho
        simp only [mkChunkOverlap, Finset.mem_inter] at hto
        exact ⟨hto.1, c, hc, hne, hto.2⟩

/-- Closed witness for the hypotheses of `overlap_tokens_supported`. -/
theorem overlap_tokens_supported_witness :
    ("karma" ∈ (verifyGrounding defaultVerifier "karma yoga dharma"
        [⟨"karma yoga dharma practice", some "s", 1⟩]).overlappingTokens) ∧
      ("karma" ∈ contentTokensOf "karma yoga dharma" ∧
        ∃ c ∈ [(⟨"karma yoga dharma practice", some "s", 1⟩ : SourceChunk)],
          c.text ≠ "" ∧ "karma" ∈ contentTokensOf c.text) :=
  ⟨by decide, overlap_tokens_supported _ _ _ (by decide)⟩

theorem verify_overlapRatio_append_ge (v : GroundingVerifier) (text : String)
    (chunks : List SourceChunk) (c : SourceChunk) :
    (verifyGrounding v text chunks).overlapRatio ≤
      (verifyGrounding v text (chunks ++ [c])).overlapRatio := by
  by_cases ht : text = ""
  · have h1 : (verifyGrounding v text chunks).overlapRatio = 0 := by
      rw [verifyGrounding_of_empty v text chunks (Or.inl ht)]
      simp [degenerateResult]
    rw [h1]
    exact verify_overlapRatio_nonneg v text (chunks ++ [c])
  · by_cases hk : chunks = []
    · have h1 : (verifyGrounding v text chunks).overlapRatio = 0 := by
        rw [verifyGrounding_of_empty v text chunks (Or.inr hk)]
        simp [degenerateResult]
      rw [h1]
      exact verify_overlapRatio_nonneg v text (chunks ++ [c])
    · have h1 : ¬(text = "" ∨ chunks = []) := by simp [ht, hk]
      have h1' : ¬(text = "" ∨ chunks ++ [c] = []) := by simp [ht]
      by_cases hct : filterContentTokens (tokenizeText text) = ∅
      · rw [verifyGrounding_of_noContent v text chunks h1 hct,
          verifyGrounding_of_noContent v text (chunks ++ [c]) h1' hct]
      · rw [verify_main_overlapRatio v text chunks h1 hct,
          verify_main_overlapRatio v text (chunks ++ [c]) h1' hct]
        have hpos : (0 : ℚ) < (filterContentTokens (tokenizeText text)).card := by
          have := Finset.card_pos.mpr (Finset.nonempty_iff_ne_empty.mpr hct)
          exact_mod_cast this
        rw [div_le_div_iff_of_pos_right hpos]
        have hmono := allOverlappingTokens_mono_append
          (filterContentTokens (tokenizeText text)) chunks c 0
        exact_mod_cast Finset.card_le_card hmono

/-- C7: appending a chunk whose content tokens contain an existing chunk's
overlap never decreases the overlap ratio reported by `verify_grounding`
(the candidate's content-token set is unchanged and the global overlap can
only grow). -/
theorem overlapRatio_monotone_add_chunk (text : String) (chunks : List SourceChunk)
    (c e : SourceChunk) (_he : e ∈ chunks)
    (_hsup : contentTokensOf text ∩ contentTokensOf e.text ⊆ contentTokensOf c.text) :
    (verifyGrounding defaultVerifier text chunks).overlapRatio ≤
      (verifyGrounding defaultVerifier text (chunks ++ [c])).overlapRatio :=
  verify_overlapRatio_append_ge defaultVerifier text chunks c

/-- Closed witness for the hypotheses of `overlapRatio_monotone_add_chunk`. -/
theorem overlapRatio_monotone_add_chunk_witness :
    ((⟨"alpha news", some "a", 1⟩ : SourceChunk) ∈
        [(⟨"alpha news", some "a", 1⟩ : SourceChunk)]) ∧
      (contentTokensOf "alpha beta gamma" ∩ contentTokensOf "alpha news" ⊆
        contentTokensOf "alpha beta story") ∧
      ((verifyGrounding defaultVerifier "alpha beta gamma"
          [⟨"alpha news", some "a", 1⟩]).overlapRatio ≤
        (verifyGrounding defaultVerifier "alpha beta gamma"
          ([⟨"alpha news", some "a", 1⟩] ++ [⟨"alpha beta story", some "b", 1⟩])).overlapRatio) :=
  ⟨by decide, by decide,
    overlapRatio_monotone_add_chunk "alpha beta gamma"
      [⟨"alpha news", some "a", 1⟩] ⟨"alpha beta story", some "b", 1⟩
      ⟨"alpha news", some "a", 1⟩ (by decide) (by decide)⟩

/-! Helper lemmas about the retry loop and the policy state. -/

theorem groundingLoop_bound (ops : RenderOps) (extractiveAnswer : String)
    (topChunks : List SourceChunk) (lang : Lang) :
    ∀ (n : ℕ) (templateId finalText : String) (g : GroundingResult) (a : ℕ),
      3 - a ≤ n → 1 ≤ a → a ≤ 3 →
      1 ≤ (groundingLoop ops extractiveAnswer topChunks lang templateId finalText g a).2.2.2.1 ∧
      (groundingLoop ops extractiveAnswer topChunks lang templateId finalText g a).2.2.2.1 ≤ 3 ∧
      (groundingLoop ops extractiveAnswer topChunks lang templateId finalText g a).2.2.2.2 + a =
        (groundingLoop ops extractiveAnswer topChunks lang templateId finalText g a).2.2.2.1 := by
  have hM : maxGroundingAttempts = 3 := rfl
  intro n
  induction n with
  | zero =>
    intro tid text g a hn h1 h3
    rw [groundingLoop, dif_neg (fun hc => by have := hc.2; omega)]
    exact ⟨by simpa using h1, by simpa using h3, by simp⟩
  | succ n ih =>
    intro tid text g a hn h1 h3
    by_cases hc : g.grounded = false ∧ a < maxGroundingAttempts
    · rw [groundingLoop, dif_pos hc]
      have hrec := ih (fallbackStep ops extractiveAnswer topChunks lang tid text a).1
        (fallbackStep ops extractiveAnswer topChunks lang tid text a).2
        (verifyGrounding defaultVerifier
          (fallbackStep ops extractiveAnswer topChunks lang tid text a).2 topChunks)
        (a + 1) (by omega) (by omega) (by have := hc.2; omega)
      rcases hR : groundingLoop ops extractiveAnswer topChunks lang
          (fallbackStep ops extractiveAnswer topChunks lang tid text a).1
          (fallbackStep ops extractiveAnswer topChunks lang tid text a).2
          (verifyGrounding defaultVerifier
            (fallbackStep ops extractiveAnswer topChunks lang tid text a).2 topChunks)
          (a + 1) with ⟨t2, x2, g2, at2, c2⟩
      rw [hR] at hrec
      simp only [hR]
      simp only [Prod.fst, Prod.snd] at hrec ⊢
      refine ⟨by omega, by omega, by omega⟩
    · rw [groundingLoop, dif_neg hc]
      exact ⟨by simpa using h1, by simpa using h3, by simp⟩

theorem groundingLoop_start_bounds (ops : RenderOps) (extractiveAnswer : String)
    (topChunks : List SourceChunk) (lang : Lang) (templateId finalText : String)
    (g : GroundingResult) :
    1 ≤ (groundingLoop ops extractiveAnswer topChunks lang templateId finalText g 1).2.2.2.1 ∧
      (groundingLoop ops extractiveAnswer topChunks lang templateId finalText g 1).2.2.2.1 ≤ 3 ∧
      1 + (groundingLoop ops extractiveAnswer topChunks lang templateId finalText g 1).2.2.2.2 ≤ 3 := by
  have hb := groundingLoop_bound ops extractiveAnswer topChunks lang 3
    templateId finalText g 1 (by omega) (by omega) (by omega)
  exact ⟨hb.1, hb.2.1, by omega⟩

/-- C2: `compose` makes at most MAX_ATTEMPTS = 3 verification calls (the
VERIFY steps of its retry loop), and the attempts count in the result,
when present, lies between 1 and 3. -/
theorem compose_attempts_bounded (ops : RenderOps) (p : RLPolicy)
    (traceId extractiveAnswer : String) (topChunks : List SourceChunk)
    (lang : Lang) (rand : ℚ) (choice : Fin 4) (elapsedMs : ℚ) :
    (compose ops p traceId extractiveAnswer topChunks lang rand choice elapsedMs).2.2 ≤ 3 ∧
      ((compose ops p traceId extractiveAnswer topChunks lang rand choice elapsedMs).1.groundingAttempts = none ∨
        ∃ a, (compose ops p traceId extractiveAnswer topChunks lang rand choice elapsedMs).1.groundingAttempts = some a ∧
          1 ≤ a ∧ a ≤ 3) := by
  unfold compose
  by_cases h : extractiveAnswer = "" ∨ topChunks = []
  · rw [if_pos h]
    exact ⟨by simp, Or.inl rfl⟩
  · rw [if_neg h]
    dsimp only
    exact ⟨(groundingLoop_start_bounds _ _ _ _ _ _ _).2.2,
      Or.inr ⟨_, rfl, (groundingLoop_start_bounds _ _ _ _ _ _ _).1,
        (groundingLoop_start_bounds _ _ _ _ _ _ _).2.1⟩⟩

/-- C3: on empty `extractive_answer` or empty `chunks`, `compose` returns the
error-fallback result — the original answer as `final_text`, template id
`error_fallback`, `grounded = false` and a non-empty error string — rather
than raising. In the embedding `compose` is a total function, so no input
can propagate an exception. -/
theorem compose_error_fallback (ops : RenderOps) (p : RLPolicy)
    (traceId extractiveAnswer : String) (topChunks : List SourceChunk)
    (lang : Lang) (rand : ℚ) (choice : Fin 4) (elapsedMs : ℚ)
    (h : extractiveAnswer = "" ∨ topChunks = []) :
    (compose ops p traceId extractiveAnswer topChunks lang rand choice elapsedMs).1.finalText = extractiveAnswer ∧
      (compose ops p traceId extractiveAnswer topChunks lang rand choice elapsedMs).1.templateId = "error_fallback" ∧
      (compose ops p traceId extractiveAnswer topChunks lang rand choice elapsedMs).1.grounded = false ∧
      ∃ e, (compose ops p traceId extractiveAnswer topChunks lang rand choice elapsedMs).1.error = some e ∧
        e ≠ "" := by
  unfold compose
  rw [if_pos h]
  exact ⟨rfl, rfl, rfl, "extractive_answer and top_chunks are required", rfl, by decide⟩

/-- Closed witness for the hypotheses of `compose_error_fallback`. -/
theorem compose_error_fallback_witness :
    (("" : String) = "" ∨ ([(⟨"chunk text", some "s", 1⟩ : SourceChunk)] : List SourceChunk) = []) ∧
      ((compose ⟨fun _ a _ _ => a, fun t _ => t, false, fun t _ _ => t⟩ freshPolicy
          "trace-1" "" [⟨"chunk text", some "s", 1⟩] Lang.EN 0 0 0).1.finalText = "" ∧
        (compose ⟨fun _ a _ _ => a, fun t _ => t, false, fun t _ _ => t⟩ freshPolicy
          "trace-1" "" [⟨"chunk text", some "s", 1⟩] Lang.EN 0 0 0).1.templateId = "error_fallback" ∧
        (compose ⟨fun _ a _ _ => a, fun t _ => t, false, fun t _ _ => t⟩ freshPolicy
          "trace-1" "" [⟨"chunk text", some "s", 1⟩] Lang.EN 0 0 0).1.grounded = false ∧
        ∃ e, (compose ⟨fun _ a _ _ => a, fun t _ => t, false, fun t _ _ => t⟩ freshPolicy
          "trace-1" "" [⟨"chunk text", some "s", 1⟩] Lang.EN 0 0 0).1.error = some e ∧ e ≠ "") :=
  ⟨Or.inl rfl, compose_error_fallback _ _ _ _ _ _ _ _ _ (Or.inl rfl)⟩

/-- C4: with a single chunk and an answer containing comparison keywords,
`_is_template_suitable` rejects the policy's COMPARE choice, but the
content-based selector the orchestrator falls back to still returns the
COMPARE template — so COMPARE is rendered with fewer than 2 chunks,
contradicting the requirement. -/
theorem compare_rendered_with_single_chunk :
    isTemplateSuitable "compare_en" "compare dharma versus karma"
        [⟨"unrelated text", some "src", 0⟩] = false ∧
      chooseTemplate PolicyAction.COMPARE "compare dharma versus karma"
          [⟨"unrelated text", some "src", 0⟩] Lang.EN =
        ("compare_en", templateFor Lang.EN TemplateType.COMPARE) ∧
      ([(⟨"unrelated text", some "src", 0⟩ : SourceChunk)]).length = 1 := by
  have hsuit : isTemplateSuitable "compare_en" "compare dharma versus karma"
      [⟨"unrelated text", some "src", 0⟩] = false := by decide
  have hek : keywordScore explainKeywords (strLower "compare dharma versus karma") = 0 := by
    decide
  have hck : keywordScore compareKeywords (strLower "compare dharma versus karma") = 2 := by
    decide
  have hxk : keywordScore exampleKeywords (strLower "compare dharma versus karma") = 0 := by
    decide
  have hec : keywordScore explainKeywords (strLower (String.intercalate " "
      (([(⟨"unrelated text", some "src", 0⟩ : SourceChunk)]).take 3 |>.map
        fun c => c.text))) = 0 := by decide
  have hcc : keywordScore compareKeywords (strLower (String.intercalate " "
      (([(⟨"unrelated text", some "src", 0⟩ : SourceChunk)]).take 3 |>.map
        fun c => c.text))) = 0 := by decide
  have hxc : keywordScore exampleKeywords (strLower (String.intercalate " "
      (([(⟨"unrelated text", some "src", 0⟩ : SourceChunk)]).take 3 |>.map
        fun c => c.text))) = 0 := by decide
  have hana : analyzeContentForTemplate "compare dharma versus karma"
      [⟨"unrelated text", some "src", 0⟩] = TemplateType.COMPARE := by
    unfold analyzeContentForTemplate
    simp only [hek, hck, hxk, hec, hcc, hxc]
    norm_num
  refine ⟨hsuit, ?_, by decide⟩
  unfold chooseTemplate mapActionToTemplate getCompareTemplate
  rw [if_pos (show ¬isTemplateSuitable (templateFor Lang.EN TemplateType.COMPARE).id
      "compare dharma versus karma" [⟨"unrelated text", some "src", 0⟩] = true by
    simpa [templateFor] using hsuit)]
  unfold selectTemplate
  rw [hana]
  simp [templateFor]

theorem selectAction_unseen (p : RLPolicy) (context : PolicyContext)
    (rand : ℚ) (choice : Fin 4) (h1 : p.epsilon ≤ rand)
    (h2 : dictMem p.qValues (extractContextKey context) = false) :
    (selectAction p context rand choice).1.1 = PolicyAction.EXPLAIN ∧
      (selectAction p context rand choice).1.2.selectionMethod = "exploitation" := by
  have hb : getBestAction p.qValues (extractContextKey context) = .ok .EXPLAIN := by
    unfold getBestAction
    rw [if_pos (show ¬dictMem p.qValues (extractContextKey context) = true by simp [h2])]
  unfold selectAction
  dsimp only
  rw [if_neg (not_lt.mpr h1), hb]
  exact ⟨rfl, rfl⟩

/-- C5 counterexample: for a context whose key is absent from the Q-table,
the non-exploration branch of `select_action` reports selection method
`"exploitation"`, not `"exploitation-default"` as the claim states. -/
theorem unseen_context_method_not_exploitation_default :
    ¬((selectAction freshPolicy ⟨"hi", [⟨"x", none, 0⟩], "EN"⟩ (1/2)
        ⟨0, by norm_num⟩).1.2.selectionMethod = "exploitation-default") ∧
      (selectAction freshPolicy ⟨"hi", [⟨"x", none, 0⟩], "EN"⟩ (1/2)
        ⟨0, by norm_num⟩).1.1 = PolicyAction.EXPLAIN ∧
      dictMem freshPolicy.qValues
        (extractContextKey ⟨"hi", [⟨"x", none, 0⟩], "EN"⟩) = false := by
  obtain ⟨ha, hm⟩ := selectAction_unseen freshPolicy ⟨"hi", [⟨"x", none, 0⟩], "EN"⟩
    (1/2) ⟨0, by norm_num⟩ (by norm_num [freshPolicy]) (by decide)
  refine ⟨?_, ha, by decide⟩
  rw [hm]
  decide

/-- C5 (amended): for a context whose key is absent from the Q-table, the
non-exploration branch of `select_action` returns EXPLAIN and reports
selection method `"exploitation"`. -/
theorem unseen_context_selects_explain (p : RLPolicy) (context : PolicyContext)
    (rand : ℚ) (choice : Fin 4) (h1 : p.epsilon ≤ rand)
    (h2 : dictMem p.qValues (extractContextKey context) = false) :
    (selectAction p context rand choice).1.1 = PolicyAction.EXPLAIN ∧
      (selectAction p context rand choice).1.2.selectionMethod = "exploitation" :=
  selectAction_unseen p context rand choice h1 h2

/-- Closed witness for the hypotheses of `unseen_context_selects_explain`. -/
theorem unseen_context_selects_explain_witness :
    (freshPolicy.epsilon ≤ (1/2 : ℚ) ∧
        dictMem freshPolicy.qValues
          (extractContextKey ⟨"hi", [⟨"x", none, 0⟩], "EN"⟩) = false) ∧
      ((selectAction freshPolicy ⟨"hi", [⟨"x", none, 0⟩], "EN"⟩ (1/2)
          ⟨0, by norm_num⟩).1.1 = PolicyAction.EXPLAIN ∧
        (selectAction freshPolicy ⟨"hi", [⟨"x", none, 0⟩], "EN"⟩ (1/2)
          ⟨0, by norm_num⟩).1.2.selectionMethod = "exploitation") :=
  ⟨⟨by norm_num [freshPolicy], by decide⟩,
    unseen_context_selects_explain _ _ _ _ (by norm_num [freshPolicy]) (by decide)⟩

theorem updatePolicy_rewardHistory (p : RLPolicy) (traceId : String)
    (meta : ActionMetadata) (reward : ℚ) :
    (updatePolicy p traceId meta reward).rewardHistory = p.rewardHistory ++ [reward] :=
  rfl

theorem applyUpdates_cons (p : RLPolicy) (u : String × ActionMetadata × ℚ)
    (rest : List (String × ActionMetadata × ℚ)) :
    applyUpdates p (u :: rest) = applyUpdates (updatePolicy p u.1 u.2.1 u.2.2) rest :=
  rfl

theorem applyUpdates_rewardHistory_length :
    ∀ (updates : List (String × ActionMetadata × ℚ)) (p : RLPolicy),
      (applyUpdates p updates).rewardHistory.length =
        p.rewardHistory.length + updates.length := by
  intro updates
  induction updates with
  | nil => intro p; simp [applyUpdates]
  | cons u rest ih =>
    intro p
    rw [applyUpdates_cons, ih, updatePolicy_rewardHistory]
    simp
    omega

theorem dequePush_length {α : Type} (cap : ℕ) (l : List α) (x : α) :
    (dequePush cap l x).length = min cap (l.length + 1) := by
  simp [dequePush]
  omega

theorem applyUpdates_buffer_le :
    ∀ (updates : List (String × ActionMetadata × ℚ)) (p : RLPolicy),
      p.experienceBuffer.length ≤ 1000 →
      (applyUpdates p updates).experienceBuffer.length ≤ 1000 := by
  intro updates
  induction updates with
  | nil => intro p h; simpa [applyUpdates] using h
  | cons u rest ih =>
    intro p h
    rw [applyUpdates_cons]
    apply ih
    simp only [updatePolicy, dequePush_length]
    omega

/-- C8 counterexample: a freshly constructed policy's reward history is a
plain unbounded list — after 1001 updates it holds 1001 entries, so it is
not a capacity-1000 ring buffer. -/
theorem rewardHistory_exceeds_capacity :
    1000 < (applyUpdates freshPolicy (List.replicate 1001
        ("t", ⟨"explain", some "k", "exploitation", some 0, some 1, some (1/10), none⟩,
          (1/2 : ℚ)))).rewardHistory.length := by
  rw [applyUpdates_rewardHistory_length, List.length_replicate]
  norm_num [freshPolicy]

/-- C8 (amended): after any sequence of updates, a freshly constructed
policy's reward history holds exactly one entry per update — it grows
without bound; the capacity-1000 bound holds for the experience replay
buffer (and for the histories only when restored from a snapshot). -/
theorem rewardHistory_unbounded_buffer_bounded
    (updates : List (String × ActionMetadata × ℚ)) :
    (applyUpdates freshPolicy updates).rewardHistory.length = updates.length ∧
      (applyUpdates freshPolicy updates).experienceBuffer.length ≤ 1000 := by
  constructor
  · rw [applyUpdates_rewardHistory_length]
    simp [freshPolicy]
  · exact applyUpdates_buffer_le updates freshPolicy (by simp [freshPolicy])

/-- C10: the policy's operations never propagate an exception: when the
exploitation lookup fails (a stored action string that is not a valid
`PolicyAction` value), `select_action` returns the EXPLAIN action with
selection method `"fallback"` and the error message, leaving the policy
unchanged; and `update_policy` is total — it processes every input,
appending the reward to the history. -/
theorem select_fallback_update_total (p : RLPolicy) (context : PolicyContext)
    (rand : ℚ) (choice : Fin 4) (e : String) (traceId : String)
    (meta : ActionMetadata) (reward : ℚ) (h1 : p.epsilon ≤ rand)
    (h2 : getBestAction p.qValues (extractContextKey context) = .error e) :
    selectAction p context rand choice =
      ((PolicyAction.EXPLAIN,
        { action := "explain", contextKey := none, selectionMethod := "fallback",
          qValue := none, actionCount := none, epsilon := none,
          error := some e }), p) ∧
      (updatePolicy p traceId meta reward).rewardHistory =
        p.rewardHistory ++ [reward] := by
  constructor
  · unfold selectAction
    dsimp only
    rw [if_neg (not_lt.mpr h1), h2]
    rfl
  · exact updatePolicy_rewardHistory p traceId meta reward

/-- Closed witness for the hypotheses of `select_fallback_update_total`. -/
theorem select_fallback_update_total_witness :
    (({ freshPolicy with qValues := [("EN_short_single", [("bogus", 1)])] } : RLPolicy).epsilon ≤ (1/2 : ℚ) ∧
        getBestAction ({ freshPolicy with
            qValues := [("EN_short_single", [("bogus", 1)])] } : RLPolicy).qValues
          (extractContextKey ⟨"hi", [⟨"x", none, 0⟩], "EN"⟩) =
          .error "bogus is not a valid PolicyAction") ∧
      (selectAction ({ freshPolicy with
            qValues := [("EN_short_single", [("bogus", 1)])] } : RLPolicy)
          ⟨"hi", [⟨"x", none, 0⟩], "EN"⟩ (1/2) ⟨0, by norm_num⟩ =
        ((PolicyAction.EXPLAIN,
          { action := "explain", contextKey := none, selectionMethod := "fallback",
            qValue := none, actionCount := none, epsilon := none,
            error := some "bogus is not a valid PolicyAction" }),
          { freshPolicy with qValues := [("EN_short_single", [("bogus", 1)])] }) ∧
        (updatePolicy ({ freshPolicy with
            qValues := [("EN_short_single", [("bogus", 1)])] } : RLPolicy) "t"
          ⟨"explain", some "k", "exploitation", some 0, some 1, some (1/10), none⟩
          (1/2)).rewardHistory =
          ({ freshPolicy with
            qValues := [("EN_short_single", [("bogus", 1)])] } : RLPolicy).rewardHistory ++
            [(1/2 : ℚ)]) :=
  ⟨⟨by norm_num [freshPolicy], by rfl⟩,
    select_fallback_update_total _ _ _ _ _ _ _ _ (by norm_num [freshPolicy]) (by rfl)⟩

end Uniguru
